import Mathlib

/-!
# Verification of the Custom Agent Runner execution engine

Shallow embedding of the run-execution engine of the `bridges` repository:
the run lifecycle state machine (`main.py`), the sandbox manager
(`docker_runner.py`), the generated bootstrap script
(`DockerRunner._create_runner_script`), and the inference proxy
(`proxy_server.py`).  Python dictionaries and JSON values are modelled by the
inductive type `JVal`; machine time is modelled by `Nat` timestamps passed
explicitly; each fallible or effectful step is modelled by an explicit
outcome parameter enumerating the branches the source code distinguishes.
-/

/-- JSON-like values, modelling Python objects that flow through the engine
(dicts, strings, numbers, lists, booleans, None). Dicts are association
lists with the first binding of a key the authoritative one. -/
inductive JVal where
  | jstr (s : String)
  | jdict (fields : List (String × JVal))
  | jarr (items : List JVal)
  | jnum (n : Int)
  | jbool (b : Bool)
  | jnull

/-- Python truthiness (`bool(x)`) for the modelled values. -/
def JVal.truthy : JVal → Bool
  | .jstr s => !(s == "")
  | .jdict f => !f.isEmpty
  | .jarr l => !l.isEmpty
  | .jnum n => !(n == 0)
  | .jbool b => b
  | .jnull => false

/-- `d.get(key)` on a Python dict modelled as an association list. -/
def dictGet : List (String × JVal) → String → Option JVal
  | [], _ => none
  | (k, v) :: rest, key => if k == key then some v else dictGet rest key

/-- Run lifecycle states, from `models.py` (`RunStatus`). -/
inductive RunStatus where
  | pending
  | queued
  | running
  | completed
  | failed
  | timeout
  | cancelled
deriving DecidableEq, Repr

/-- The terminal states, per the state machine: Completed, Failed, Timeout,
Cancelled. -/
def RunStatus.isTerminal : RunStatus → Bool
  | .completed => true
  | .failed => true
  | .timeout => true
  | .cancelled => true
  | _ => false

/-- Patch derivation of `execute_agent_run` (`main.py` lines 260-269):
start from `""`; if the output is a dict, take `output.get("patch", "")`;
if that value is falsy and a `result` key exists, overwrite with the nested
dict's `patch` (default `""`) when `result` is a dict, or with `result`
itself when it is a string; other `result` types leave the value alone. -/
def extract_patch (output : JVal) : JVal :=
  match output with
  | .jdict fields =>
    let patch := (dictGet fields "patch").getD (.jstr "")
    if patch.truthy then patch
    else
      match dictGet fields "result" with
      | some (.jdict rf) => (dictGet rf "patch").getD (.jstr "")
      | some (.jstr s) => .jstr s
      | _ => patch
  | _ => .jstr ""

/-- The patch-precedence rule exactly as the specification words it
(strict precedence on *presence* of fields): (1) a top-level `patch` field;
(2) absent that, the nested `patch` of a dict-valued `result` field;
(3) absent that, a string-valued `result` field; (4) otherwise empty. -/
def spec_patch_precedence (output : JVal) : JVal :=
  match output with
  | .jdict fields =>
    match dictGet fields "patch" with
    | some p => p
    | none =>
      match dictGet fields "result" with
      | some (.jdict rf) =>
        match dictGet rf "patch" with
        | some q => q
        | none => .jstr ""
      | some (.jstr s) => .jstr s
      | _ => .jstr ""
  | _ => .jstr ""

/-- The patch-precedence rule amended so that precedence step (1) fires only
when the top-level `patch` field is truthy (a non-empty value), and a falsy
top-level `patch` value is kept when the `result` field is absent or of a
non-dict, non-string type. -/
def amended_patch_precedence (output : JVal) : JVal :=
  match output with
  | .jdict fields =>
    let top := dictGet fields "patch"
    if (match top with | some p => p.truthy | none => false) then
      top.getD (.jstr "")
    else
      match dictGet fields "result" with
      | some (.jdict rf) => (dictGet rf "patch").getD (.jstr "")
      | some (.jstr s) => .jstr s
      | _ => top.getD (.jstr "")
  | _ => .jstr ""

/-- The opening-brace character. -/
def openBrace : Char := Char.ofNat 123

/-- The closing-brace character. -/
def closeBrace : Char := Char.ofNat 125

/-- A string's characters with leading and trailing whitespace removed,
modelling Python's `str.strip()`. -/
def strippedChars (s : String) : List Char :=
  ((s.toList.dropWhile Char.isWhitespace).reverse.dropWhile
    Char.isWhitespace).reverse

/-- A log line counts for fallback extraction when, stripped, it starts
with an opening brace and ends with a closing brace
(`docker_runner.py` line 377). -/
def braceDelimited (l : String) : Bool :=
  (strippedChars l).head? == some openBrace
    && (strippedChars l).getLast? == some closeBrace

/-- `DockerRunner._extract_output_from_logs` (`docker_runner.py` lines
373-383): split the captured logs on newlines, scan the lines in reverse,
and return the first line that is brace-delimited and parses as JSON
(`parseFn` models `json.loads` restricted to objects, with a parse failure
as `none`); if none qualifies, wrap the raw log text as a one-field dict. -/
def extract_output_from_logs (parseFn : String → Option JVal) (logs : String) : JVal :=
  match (logs.splitOn "\n").reverse.findSome?
      (fun l => if braceDelimited l then parseFn l else none) with
  | some v => v
  | none => .jdict [("logs", .jstr logs)]

/-- The dictionary value `DockerRunner.run_agent` returns to
`execute_agent_run`; optional fields model keys absent from some of the
three return sites (`docker_runner.py` lines 204-210, 219-223, 227-231). -/
structure DockerRet where
  success : Bool
  output : Option JVal
  error : Option String
  logs : Option (List String)

/-- How the sandboxed execution unit ends, as distinguished by
`DockerRunner.run_agent`: the container exits (with an exit code, an
optional parsed `/workspace/output.json` and its captured logs), the poll
loop exceeds the timeout (`_wait_for_container` raises
`asyncio.TimeoutError`), or some other exception occurs during the run. -/
inductive ContainerOutcome where
  | exited (exitCode : Int) (outputFile : Option JVal) (logs : String)
  | timedOut
  | errored (msg : String)

/-- `DockerRunner.run_agent` (`docker_runner.py` lines 53-253).  The
`asyncio.TimeoutError` raised by the poll loop is caught inside this
function (line 212), which therefore always *returns* a dictionary and
never propagates a timeout: on a normal exit, success is the exit code
being zero and the output is the output file if present, else the log
fallback; on timeout or any other exception, a success-false dictionary
with an error message and empty logs.  The cleanup in the `finally` block
swallows all its own errors and does not affect the returned value. -/
def run_agent (timeoutSecs : Nat) (parseFn : String → Option JVal)
    (co : ContainerOutcome) : DockerRet :=
  match co with
  | .exited exitCode outputFile logs =>
    { success := exitCode == 0
      output := some (match outputFile with
        | some o => o
        | none => extract_output_from_logs parseFn logs)
      error := none
      logs := some (logs.splitOn "\n") }
  | .timedOut =>
    { success := false
      output := none
      error := some ("Execution timed out after " ++ toString timeoutSecs ++ " seconds")
      logs := some [] }
  | .errored msg =>
    { success := false
      output := none
      error := some msg
      logs := some [] }

/-- The run record (`models.py`, `RunResult`), with timestamps as `Nat`. -/
structure RunResult where
  run_id : String
  agent_id : String
  status : RunStatus
  created_at : Nat
  started_at : Option Nat := none
  completed_at : Option Nat := none
  duration_seconds : Option Nat := none
  problem_statement : String
  output : Option JVal := none
  patch : Option JVal := none
  error : Option String := none
  logs : Option (List String) := none
  files_count : Option Nat := none
  agent_path : Option String := none

/-- The three ways `execute_agent_run` leaves its `try` block after the
status is set to Running: `docker_runner.run_agent` returns a dictionary,
or an `asyncio.TimeoutError` propagates, or some other exception does. -/
inductive DockerCall where
  | returns (ret : DockerRet)
  | raisesTimeout
  | raisesExc (msg : String)

/-- The record state right after `execute_agent_run` enters its `try` block
(`main.py` lines 242-243): status Running, `started_at` stamped.  This is
the state observable while the sandbox call is awaited. -/
def run_started (r : RunResult) (tStarted : Nat) : RunResult :=
  { r with status := .running, started_at := some tStarted }

/-- `execute_agent_run` (`main.py` lines 229-289) after the Running
transition: on a returned result dictionary, status is Completed exactly
when `result.get("success")` is truthy, the output (default empty dict),
derived patch, error, logs and `completed_at` are recorded, and
`duration_seconds` is computed from the timestamps since `started_at` is
set; on `asyncio.TimeoutError`, status Timeout with `completed_at` but no
duration; on any other exception, status Failed with `completed_at` but no
duration. -/
def execute_agent_run (r : RunResult) (call : DockerCall)
    (tStarted tCompleted : Nat) : RunResult :=
  let r1 := run_started r tStarted
  match call with
  | .returns ret =>
    let output := ret.output.getD (.jdict [])
    { r1 with
      status := if ret.success then .completed else .failed
      output := some output
      patch := some (extract_patch output)
      error := ret.error
      logs := some (ret.logs.getD [])
      completed_at := some tCompleted
      duration_seconds :=
        if (some tStarted : Option Nat).isSome then some (tCompleted - tStarted)
        else r1.duration_seconds }
  | .raisesTimeout =>
    { r1 with
      status := .timeout
      error := some "Agent execution timed out"
      completed_at := some tCompleted }
  | .raisesExc msg =>
    { r1 with
      status := .failed
      error := some ("Execution error: " ++ msg)
      completed_at := some tCompleted }

/-- How `submit_run` proceeds after creating the Pending record: ZIP
extraction raises, the agent download raises (with the files count already
recorded when a ZIP was extracted), or both steps succeed and the
background task is dispatched. -/
inductive SubmitOutcome where
  | zipError (msg : String)
  | downloadError (filesCount : Option Nat) (msg : String)
  | ok (filesCount : Option Nat)

/-- The freshly created record of `submit_run` (`main.py` lines 85-93):
status Pending, only creation data set. -/
def initial_run (runId agentId problem : String) (tCreated : Nat) : RunResult :=
  { run_id := runId
    agent_id := agentId
    status := .pending
    created_at := tCreated
    problem_statement := problem }

/-- `submit_run` (`main.py` lines 61-127) after record creation: a ZIP
extraction failure or an agent download failure moves the record straight
to Failed with an error message and `completed_at`, without dispatching
the background task; otherwise the agent path is recorded, background
execution is dispatched and the status becomes Queued.  Returns the record
together with whether the background task was dispatched. -/
def submit_run (runId agentId problem agentPath : String)
    (tCreated tDone : Nat) (so : SubmitOutcome) : RunResult × Bool :=
  let r0 := initial_run runId agentId problem tCreated
  match so with
  | .zipError msg =>
    ({ r0 with
        status := .failed
        error := some ("Failed to extract ZIP file: " ++ msg)
        completed_at := some tDone }, false)
  | .downloadError fc msg =>
    ({ r0 with
        files_count := fc
        status := .failed
        error := some ("Failed to download agent: " ++ msg)
        completed_at := some tDone }, false)
  | .ok fc =>
    ({ r0 with
        files_count := fc
        agent_path := some agentPath
        status := .queued }, true)

/-- The run record at each observable point of its lifecycle — i.e. after
each block of mutations separated by an `await` boundary: after creation
(Pending), after `submit_run` finishes (Queued or a pre-execution Failed),
and, when background execution was dispatched, after the Running
transition and after the terminal transition of `execute_agent_run`. -/
def lifecycle_snapshots (runId agentId problem agentPath : String)
    (tCreated tDone tStarted tCompleted : Nat)
    (so : SubmitOutcome) (call : DockerCall) : List RunResult :=
  let r0 := initial_run runId agentId problem tCreated
  let (r, dispatched) := submit_run runId agentId problem agentPath tCreated tDone so
  [r0, r] ++
    (if dispatched then
      [run_started r tStarted, execute_agent_run r call tStarted tCompleted]
    else [])

/-- The sequence of status values a run record takes, one per observable
point of `lifecycle_snapshots`. -/
def lifecycle_trace (runId agentId problem agentPath : String)
    (tCreated tDone tStarted tCompleted : Nat)
    (so : SubmitOutcome) (call : DockerCall) : List RunStatus :=
  (lifecycle_snapshots runId agentId problem agentPath
    tCreated tDone tStarted tCompleted so call).map (·.status)

/-- A run's proxy configuration (`proxy_server.py`, `run_configs` values). -/
structure RunConfig where
  inference_url : String
  api_key : String
deriving DecidableEq, Repr

/-- `run_configs.get(run_id)`-style lookup on the proxy's mapping. -/
def dictGetC : List (String × RunConfig) → String → Option RunConfig
  | [], _ => none
  | (k, v) :: rest, key => if k == key then some v else dictGetC rest key

/-- `register_run` (`proxy_server.py` lines 34-41): bind the run id to its
endpoint and credential, replacing any previous binding. -/
def register_run (configs : List (String × RunConfig))
    (runId inferenceUrl apiKey : String) : List (String × RunConfig) :=
  (runId, { inference_url := inferenceUrl, api_key := apiKey })
    :: configs.filter (fun p => !(p.1 == runId))

/-- `unregister_run` (`proxy_server.py` lines 117-123): drop the run id's
binding if present; absent ids are reported but not an error. -/
def unregister_run (configs : List (String × RunConfig))
    (runId : String) : List (String × RunConfig) :=
  configs.filter (fun p => !(p.1 == runId))

/-- Failure class of the proxy when no credential is resolvable:
HTTP 401 (`proxy_server.py` line 55). -/
inductive ProxyError where
  | authError
deriving DecidableEq, Repr

/-- The process-wide default endpoint when `INFERENCE_URL` is unset
(`proxy_server.py` line 51). -/
def default_inference_url : String := "https://api.openai.com/v1/chat/completions"

/-- Configuration resolution of `handle_inference` (`proxy_server.py` lines
48-59): a run id with a registered configuration uses it; otherwise the
environment's `INFERENCE_URL` (default the OpenAI endpoint) and `API_KEY`
(default empty) stand in, and an empty resolved credential fails with the
401 error. -/
def resolve_config (configs : List (String × RunConfig)) (runId : String)
    (envInferenceUrl envApiKey : Option String) : Except ProxyError RunConfig :=
  match dictGetC configs runId with
  | some c => .ok c
  | none =>
    let url := envInferenceUrl.getD default_inference_url
    let key := envApiKey.getD ""
    if key == "" then .error .authError
    else .ok { inference_url := url, api_key := key }

/-- `DockerRunner.stop_run` (`docker_runner.py` lines 385-394): when the
run id is tracked, stop and force-remove its container — any exception from
those two calls is swallowed (`stopFails` models such a failure and has no
observable effect) — and drop the bookkeeping entry; untracked ids are a
no-op. -/
def stop_run (containers : List String) (runId : String)
    (stopFails : Bool) : List String :=
  if containers.contains runId then
    let _ := stopFails
    containers.filter (fun c => !(c == runId))
  else containers

/-- `delete_run` (`main.py` lines 195-216) acting on the registry (run id to
status) and the sandbox manager's tracked containers: an absent run id
fails with 404 NotFound; a Queued or Running run first requests a sandbox
stop (whose failure is caught and only logged) and the record is then
removed unconditionally; any other status removes the record without
touching the sandbox.  Returns the new registry, the new tracked-container
list, and whether a stop was requested. -/
def delete_run (db : List (String × RunStatus)) (containers : List String)
    (stopFails : Bool) (runId : String) :
    Except Unit (List (String × RunStatus) × List String × Bool) :=
  match db.lookup runId with
  | none => .error ()
  | some st =>
    if st == .running || st == .queued then
      .ok (db.filter (fun p => !(p.1 == runId)), stop_run containers runId stopFails, true)
    else
      .ok (db.filter (fun p => !(p.1 == runId)), containers, false)

/-- What the agent invocation inside the bootstrap script does: return a
value, or raise (captured with its message). -/
inductive AgentOutcome where
  | retVal (v : JVal)
  | raised (msg : String)

/-- Whether `len(x)` succeeds on the modelled Python value (sequences and
dicts have a length; None, numbers and booleans raise `TypeError`). -/
def lenOk : JVal → Bool
  | .jstr _ => true
  | .jdict _ => true
  | .jarr _ => true
  | _ => false

/-- Patch derivation inside the bootstrap script
(`_create_runner_script`, generated lines around `docker_runner.py`
313-329): the result's `patch` field when the result is a dict containing
one, the result itself when it is a string, else nothing; when that value
is falsy (absent, None, or empty) and file context exists, fall back to
`git diff HEAD` when it exits 0 with non-empty output (`gitDiff` is `some`
exactly when the subprocess ran with exit code 0, holding its stdout). -/
def derived_patch (v : JVal) (hasFiles : Bool) (gitDiff : Option String) : Option JVal :=
  let patch0 : Option JVal :=
    match v with
    | .jdict f => dictGet f "patch"
    | .jstr s => some (.jstr s)
    | _ => none
  let patchFalsy : Bool :=
    match patch0 with
    | none => true
    | some p => !p.truthy
  if patchFalsy && hasFiles then
    match gitDiff with
    | some d => if d == "" then patch0 else some (.jstr d)
    | none => patch0
  else patch0

/-- The output document the bootstrap script writes when the agent
invocation raised: error message, traceback, and the failure flag. -/
def fail_output (msg tb : String) : JVal :=
  .jdict [("error", .jstr msg), ("traceback", .jstr tb), ("success", .jbool false)]

/-- The output document the bootstrap script writes when the agent
invocation returned: the result, the derived patch (None when absent), and
the success flag. -/
def success_output (v : JVal) (hasFiles : Bool) (gitDiff : Option String) : JVal :=
  .jdict [("result", v), ("patch", (derived_patch v hasFiles gitDiff).getD .jnull),
          ("success", .jbool true)]

/-- What one execution of the generated bootstrap script produces: the
document written to `/workspace/output.json` (if any) and the process exit
code. -/
structure ScriptResult where
  outputDoc : Option JVal
  exitCode : Nat

/-- The generated bootstrap script (`DockerRunner._create_runner_script`,
`docker_runner.py` lines 265-356).  When `import agent` fails the script
prints the error and exits 1 without writing any document.  Otherwise the
agent is invoked: a raised exception yields the failure document and a
clean exit; a returned value yields the success document with the derived
patch, after which the final log line evaluates
`len(output.get('patch', ''))` — the `patch` key is present, so a stored
value with no `len()` (notably None, written when no patch was derived)
raises an uncaught `TypeError` and the process exits 1, the document
having already been written. -/
def runner_script (importOk : Bool) (outcome : AgentOutcome)
    (hasFiles : Bool) (gitDiff : Option String) : ScriptResult :=
  if !importOk then { outputDoc := none, exitCode := 1 }
  else
    match outcome with
    | .raised msg =>
      { outputDoc := some (fail_output msg msg), exitCode := 0 }
    | .retVal v =>
      let finalPatch := (derived_patch v hasFiles gitDiff).getD .jnull
      { outputDoc := some (success_output v hasFiles gitDiff)
        exitCode := if lenOk finalPatch then 0 else 1 }

/-- The timestamp/duration invariant exactly as the specification claims it
(C4): `completed_at` is set iff the status is terminal, `duration_seconds`
is set iff both `started_at` and `completed_at` are set, and it then equals
their difference. -/
def run_timestamps_claim (r : RunResult) : Prop :=
  (r.completed_at.isSome = r.status.isTerminal)
  ∧ (r.duration_seconds.isSome ↔ (r.started_at.isSome ∧ r.completed_at.isSome))
  ∧ (∀ d s c, r.duration_seconds = some d → r.started_at = some s →
      r.completed_at = some c → d = c - s)

/-- The timestamp/duration invariant amended (C4): `completed_at` is set iff
the status is terminal, and `duration_seconds` is set *only if* both
`started_at` and `completed_at` are set, in which case it equals their
difference — runs terminated through the timeout or internal-exception
branches carry both timestamps but no duration. -/
def run_timestamps_amended (r : RunResult) : Prop :=
  (r.completed_at.isSome = r.status.isTerminal)
  ∧ (∀ d, r.duration_seconds = some d →
      ∃ s c, r.started_at = some s ∧ r.completed_at = some c ∧ d = c - s)

/-- The specification's wording of the log fallback (C8): the last line of
the captured logs that parses as structured data. -/
def last_structured_line (parseFn : String → Option JVal) (logs : String) : Option JVal :=
  ((logs.splitOn "\n").filterMap parseFn).getLast?

/-- A concrete stand-in for `json.loads` restricted to objects, used to
instantiate the C8 theorem on concrete input: it parses exactly the text
consisting of an opening and a closing brace, to the empty document. -/
def sample_parse (l : String) : Option JVal :=
  if l == "\x7b\x7d" then some (.jdict []) else none
/-- C2 counterexample: on the document with `patch` bound to `""` and
`result` bound to `"P3"`, the
code-derived patch is `"P3"` (the empty top-level `patch` field is falsy and
is overridden by the string `result`), while the claimed strict
presence-precedence gives the top-level value `""`. -/
theorem patch_precedence_counterexample :
    extract_patch (.jdict [("patch", .jstr ""), ("result", .jstr "P3")])
      = .jstr "P3"
    ∧ spec_patch_precedence (.jdict [("patch", .jstr ""), ("result", .jstr "P3")])
      = .jstr "" := by
  constructor <;> rfl

/-- C2 (amended): for every structured output document the code-derived
canonical patch follows the precedence of `amended_patch_precedence`: a
*truthy* top-level `patch` field wins; absent that, a dict-valued `result`
contributes its `patch` field (empty if missing); a string-valued `result`
is used directly; otherwise the (possibly falsy) top-level `patch` value,
defaulting to empty. -/
theorem patch_precedence_truthy_amended (output : JVal) :
    extract_patch output = amended_patch_precedence output := by
  unfold extract_patch amended_patch_precedence
  cases output with
  | jdict fields =>
    cases h : dictGet fields "patch" with
    | none => simp [h, JVal.truthy]
    | some p => cases hp : p.truthy <;> simp [h, hp]
  | jstr s => rfl
  | jarr l => rfl
  | jnum n => rfl
  | jbool b => rfl
  | jnull => rfl

/-- C1 (evaluation at the failing input): for a run whose sandboxed
execution exceeds the configured timeout, `DockerRunner.run_agent` catches
the `asyncio.TimeoutError` itself and returns a success-false dictionary,
so `execute_agent_run` records the terminal status Failed — not Timeout as
the claim (and the dedicated but unreachable `except asyncio.TimeoutError`
branch of `execute_agent_run`) requires. -/
theorem timeout_run_recorded_as_failed (r : RunResult) (tS tC timeoutSecs : Nat)
    (parseFn : String → Option JVal) :
    (run_agent timeoutSecs parseFn .timedOut).success = false
    ∧ (execute_agent_run r (.returns (run_agent timeoutSecs parseFn .timedOut))
        tS tC).status = .failed
    ∧ (execute_agent_run r (.returns (run_agent timeoutSecs parseFn .timedOut))
        tS tC).status ≠ .timeout := by
  refine ⟨rfl, rfl, ?_⟩
  intro h
  simp [execute_agent_run, run_agent] at h

/-- C3: every run lifecycle produces exactly one of the status sequences
Pending→Failed (a pre-execution failure, bypassing Queued and Running) or
Pending→Queued→Running→terminal with the terminal status Completed, Failed
or Timeout; in every sequence the terminal status is the last observation,
so no status mutation follows a terminal status. -/
theorem run_status_trace_shape (runId agentId problem agentPath : String)
    (tCreated tDone tStarted tCompleted : Nat)
    (so : SubmitOutcome) (call : DockerCall) :
    lifecycle_trace runId agentId problem agentPath
        tCreated tDone tStarted tCompleted so call = [.pending, .failed]
    ∨ lifecycle_trace runId agentId problem agentPath
        tCreated tDone tStarted tCompleted so call
      = [.pending, .queued, .running, .completed]
    ∨ lifecycle_trace runId agentId problem agentPath
        tCreated tDone tStarted tCompleted so call
      = [.pending, .queued, .running, .failed]
    ∨ lifecycle_trace runId agentId problem agentPath
        tCreated tDone tStarted tCompleted so call
      = [.pending, .queued, .running, .timeout] := by
  cases so with
  | zipError msg => exact Or.inl rfl
  | downloadError fc msg => exact Or.inl rfl
  | ok fc =>
    cases call with
    | returns ret =>
      cases h : ret.success with
      | true =>
        refine Or.inr (Or.inl ?_)
        simp [lifecycle_trace, lifecycle_snapshots, submit_run, initial_run,
          run_started, execute_agent_run, h]
      | false =>
        refine Or.inr (Or.inr (Or.inl ?_))
        simp [lifecycle_trace, lifecycle_snapshots, submit_run, initial_run,
          run_started, execute_agent_run, h]
    | raisesTimeout => exact Or.inr (Or.inr (Or.inr rfl))
    | raisesExc msg => exact Or.inr (Or.inr (Or.inl rfl))

/-- C4 counterexample: the run record reached through the internal-exception
branch of `execute_agent_run` is an observable lifecycle state in which
`started_at` and `completed_at` are both set but `duration_seconds` is not
(that branch never computes it), refuting the claimed iff. -/
theorem duration_invariant_counterexample :
    (execute_agent_run (submit_run "r" "a" "p" "ap" 0 0 (.ok none)).1
        (.raisesExc "boom") 1 2)
      ∈ lifecycle_snapshots "r" "a" "p" "ap" 0 0 1 2 (.ok none) (.raisesExc "boom")
    ∧ ¬ run_timestamps_claim
        (execute_agent_run (submit_run "r" "a" "p" "ap" 0 0 (.ok none)).1
          (.raisesExc "boom") 1 2) := by
  constructor
  · simp [lifecycle_snapshots, submit_run, initial_run]
  · intro h
    have h2 := h.2.1.mpr
    simp [execute_agent_run, run_started, submit_run, initial_run] at h2

/-- C4 (amended): at every observable point of every run lifecycle,
`completed_at` is set iff the status is terminal, and `duration_seconds`
is set only if both `started_at` and `completed_at` are set, in which case
it equals their difference. -/
theorem timestamps_invariant_amended (runId agentId problem agentPath : String)
    (tCreated tDone tStarted tCompleted : Nat)
    (so : SubmitOutcome) (call : DockerCall) :
    ∀ r ∈ lifecycle_snapshots runId agentId problem agentPath
        tCreated tDone tStarted tCompleted so call,
      run_timestamps_amended r := by
  intro r hr
  cases so with
  | zipError msg =>
    simp [lifecycle_snapshots, submit_run, initial_run] at hr
    rcases hr with rfl | rfl
    · exact ⟨rfl, by intro d hd; simp at hd⟩
    · exact ⟨rfl, by intro d hd; simp at hd⟩
  | downloadError fc msg =>
    simp [lifecycle_snapshots, submit_run, initial_run] at hr
    rcases hr with rfl | rfl
    · exact ⟨rfl, by intro d hd; simp at hd⟩
    · exact ⟨rfl, by intro d hd; simp at hd⟩
  | ok fc =>
    simp [lifecycle_snapshots, submit_run, initial_run] at hr
    rcases hr with rfl | rfl | rfl | rfl
    · exact ⟨rfl, by intro d hd; simp at hd⟩
    · exact ⟨rfl, by intro d hd; simp at hd⟩
    · exact ⟨rfl, by intro d hd; simp [run_started] at hd⟩
    · cases call with
      | returns ret =>
        refine ⟨by cases h : ret.success <;>
          simp [execute_agent_run, run_started, h, RunStatus.isTerminal], ?_⟩
        intro d hd
        simp [execute_agent_run, run_started] at hd
        exact ⟨tStarted, tCompleted, by simp [execute_agent_run, run_started],
          by simp [execute_agent_run, run_started], hd.symm⟩
      | raisesTimeout =>
        exact ⟨rfl, by intro d hd; simp [execute_agent_run, run_started] at hd⟩
      | raisesExc msg =>
        exact ⟨rfl, by intro d hd; simp [execute_agent_run, run_started] at hd⟩

/-- C4 amended-claim witness: the invariant instantiated on a concrete
completed run lifecycle. -/
theorem timestamps_invariant_amended_witness :
    run_timestamps_amended
      (execute_agent_run (submit_run "r" "a" "p" "ap" 0 0 (.ok none)).1
        (.returns { success := true, output := none, error := none, logs := none })
        1 3) :=
  timestamps_invariant_amended "r" "a" "p" "ap" 0 0 1 3 (.ok none)
    (.returns { success := true, output := none, error := none, logs := none })
    _ (by simp [lifecycle_snapshots, submit_run, initial_run])

/-- C5 counterexample: when `import agent` fails, the bootstrap script exits
with status 1 and writes no output document; and even with a successful
import, an agent returning a dict with no patch (file context absent)
leaves the derived patch as None, so the script's final
`len(output.get('patch', ''))` log line raises and the process exits 1
despite the document having been written. -/
theorem runner_script_nonzero_exit_counterexample :
    (runner_script false (.retVal .jnull) false none).outputDoc = none
    ∧ (runner_script false (.retVal .jnull) false none).exitCode = 1
    ∧ (runner_script true (.retVal (.jdict [])) false none).outputDoc
        = some (success_output (.jdict []) false none)
    ∧ (runner_script true (.retVal (.jdict [])) false none).exitCode = 1 := by
  exact ⟨rfl, rfl, rfl, rfl⟩

/-- C5 (amended): when the agent module imports successfully, the bootstrap
script always writes exactly one structured output document to the fixed
workspace path, and an agent-level failure (a raised exception) is encoded
as the failure flag inside that document with a zero process exit; the
process exit is zero iff the derived patch value stored in a success
document supports `len()` (in particular, it is 1 when no patch was derived
and None was stored).  When the import fails, the script exits 1 without
writing any document. -/
theorem runner_script_behavior_amended (hasFiles : Bool) (gitDiff : Option String)
    (msg : String) (v : JVal) (outcome : AgentOutcome) :
    runner_script false outcome hasFiles gitDiff = ⟨none, 1⟩
    ∧ runner_script true (.raised msg) hasFiles gitDiff
        = ⟨some (fail_output msg msg), 0⟩
    ∧ (runner_script true (.retVal v) hasFiles gitDiff).outputDoc
        = some (success_output v hasFiles gitDiff)
    ∧ ((runner_script true (.retVal v) hasFiles gitDiff).exitCode = 0
        ↔ lenOk ((derived_patch v hasFiles gitDiff).getD .jnull) = true) := by
  refine ⟨rfl, rfl, rfl, ?_⟩
  by_cases h : lenOk ((derived_patch v hasFiles gitDiff).getD .jnull) = true <;>
    simp [runner_script, h]

/-- Helper: after `unregister_run`, the proxy mapping has no binding left
for the unregistered run id. -/
theorem dictGetC_unregister (configs : List (String × RunConfig)) (runId : String) :
    dictGetC (unregister_run configs runId) runId = none := by
  induction configs with
  | nil => rfl
  | cons hd tl ih =>
    by_cases h : hd.1 == runId
    · simpa [unregister_run, List.filter_cons, h] using ih
    · simp only [unregister_run, List.filter_cons, h, Bool.not_false, if_pos] at ih ⊢
      simpa [dictGetC, h] using ih

/-- C6: an inference call tagged with a run id uses the run's registered
endpoint and credential when one is registered; otherwise it falls back to
the process-wide defaults from the environment; when no default credential
is available either, it fails with the 401 ProxyAuthError; and after
`unregister_run` the run id has no registered configuration, so the same
fallback applies. -/
theorem inference_routing_fallback (configs : List (String × RunConfig))
    (runId : String) (c : RunConfig) (envUrl envKey : Option String) :
    (dictGetC configs runId = some c →
      resolve_config configs runId envUrl envKey = .ok c)
    ∧ (dictGetC configs runId = none → envKey.getD "" ≠ "" →
      resolve_config configs runId envUrl envKey
        = .ok { inference_url := envUrl.getD default_inference_url
                api_key := envKey.getD "" })
    ∧ (dictGetC configs runId = none → envKey.getD "" = "" →
      resolve_config configs runId envUrl envKey = .error .authError)
    ∧ dictGetC (unregister_run configs runId) runId = none := by
  refine ⟨?_, ?_, ?_, dictGetC_unregister configs runId⟩
  · intro h
    simp [resolve_config, h]
  · intro h h2
    simp [resolve_config, h, h2]
  · intro h h2
    simp [resolve_config, h, h2]

/-- C6 witness: concrete registry with one registered run.  The registered
id routes through its own endpoint and credential even though they differ
from the defaults; an unknown id uses the defaults when present and fails
with the 401 error when no default credential exists; unregistration
removes the binding. -/
theorem inference_routing_fallback_witness :
    resolve_config [("r1", { inference_url := "http://u1", api_key := "k1" })]
        "r1" (some "http://du") (some "dk")
      = .ok { inference_url := "http://u1", api_key := "k1" }
    ∧ resolve_config [("r1", { inference_url := "http://u1", api_key := "k1" })]
        "r2" (some "http://du") (some "dk")
      = .ok { inference_url := "http://du", api_key := "dk" }
    ∧ resolve_config [("r1", { inference_url := "http://u1", api_key := "k1" })]
        "r2" none none
      = .error .authError
    ∧ dictGetC (unregister_run
        [("r1", { inference_url := "http://u1", api_key := "k1" })] "r1") "r1"
      = none := by
  have T1 := inference_routing_fallback
    [("r1", { inference_url := "http://u1", api_key := "k1" })] "r1"
    { inference_url := "http://u1", api_key := "k1" } (some "http://du") (some "dk")
  have T2 := inference_routing_fallback
    [("r1", { inference_url := "http://u1", api_key := "k1" })] "r2"
    { inference_url := "http://u1", api_key := "k1" } (some "http://du") (some "dk")
  have T3 := inference_routing_fallback
    [("r1", { inference_url := "http://u1", api_key := "k1" })] "r2"
    { inference_url := "http://u1", api_key := "k1" } none none
  exact ⟨T1.1 rfl, T2.2.1 rfl (by decide), T3.2.2.1 rfl rfl, T1.2.2.2⟩

/-- C7: deleting an absent run id fails with NotFound; deleting a Queued or
Running run requests a sandbox stop and removes the record unconditionally,
whether or not the container stop fails; deleting a run in a terminal
status removes the record without touching the sandbox. -/
theorem delete_run_removal (db : List (String × RunStatus))
    (containers : List String) (stopFails : Bool) (runId : String)
    (st : RunStatus) :
    (db.lookup runId = none →
      delete_run db containers stopFails runId = .error ())
    ∧ (db.lookup runId = some st → (st = .running ∨ st = .queued) →
      delete_run db containers stopFails runId
        = .ok (db.filter (fun p => !(p.1 == runId)),
               stop_run containers runId stopFails, true))
    ∧ (db.lookup runId = some st → st.isTerminal = true →
      delete_run db containers stopFails runId
        = .ok (db.filter (fun p => !(p.1 == runId)), containers, false)) := by
  refine ⟨?_, ?_, ?_⟩
  · intro h
    simp [delete_run, h]
  · intro h h2
    have hb : (st == RunStatus.running || st == RunStatus.queued) = true := by
      rcases h2 with rfl | rfl <;> rfl
    simp [delete_run, h, hb]
  · intro h h2
    have hb : (st == RunStatus.running || st == RunStatus.queued) = false := by
      cases st <;> simp_all [RunStatus.isTerminal]
    simp [delete_run, h, hb]

/-- C7 witness: a registry with one Running and one Completed run and one
tracked container.  Deleting the unknown id "c" is NotFound; deleting the
Running run "a" requests the stop (clearing its tracked container) and
removes the record even though the container stop fails; deleting the
Completed run "b" leaves the tracked containers untouched. -/
theorem delete_run_removal_witness :
    delete_run [("a", RunStatus.running), ("b", RunStatus.completed)] ["a"] true "c"
      = .error ()
    ∧ delete_run [("a", RunStatus.running), ("b", RunStatus.completed)] ["a"] true "a"
      = .ok ([("b", RunStatus.completed)], [], true)
    ∧ delete_run [("a", RunStatus.running), ("b", RunStatus.completed)] ["a"] true "b"
      = .ok ([("a", RunStatus.running)], ["a"], false) := by
  have TA := delete_run_removal
    [("a", RunStatus.running), ("b", RunStatus.completed)] ["a"] true "a"
    RunStatus.running
  have TB := delete_run_removal
    [("a", RunStatus.running), ("b", RunStatus.completed)] ["a"] true "b"
    RunStatus.completed
  have TC := delete_run_removal
    [("a", RunStatus.running), ("b", RunStatus.completed)] ["a"] true "c"
    RunStatus.pending
  refine ⟨TC.1 (by rfl), ?_, ?_⟩
  · have := TA.2.1 (by rfl) (Or.inl rfl)
    simpa using this
  · have := TB.2.2 (by rfl) rfl
    simpa using this

/-- Helper: scanning a list with `findSome?` equals the head of its
`filterMap`. -/
theorem findSome_eq_head_filterMap (f : String → Option JVal) (l : List String) :
    l.findSome? f = (l.filterMap f).head? := by
  induction l with
  | nil => rfl
  | cons a t ih =>
    rw [List.findSome?_cons, List.filterMap_cons]
    cases h : f a with
    | none => simp only [h]; exact ih
    | some v => simp only [h, List.head?_cons]

/-- Helper: scanning a reversed list with `findSome?` picks the value of
the last element of the forward list that maps to `some`. -/
theorem findSome_reverse_eq_getLast_filterMap (f : String → Option JVal)
    (l : List String) :
    l.reverse.findSome? f = (l.filterMap f).getLast? := by
  rw [findSome_eq_head_filterMap, List.filterMap_reverse, List.head?_reverse]

/-- C8: the sandbox manager uses the structured output document when the
output file exists; when it is absent, the output is obtained by scanning
the captured log lines in reverse and taking the last line that parses as
structured data (here any successfully parsing line is brace-delimited,
as JSON objects are); and if no line parses, the raw log text is wrapped as
the output. -/
theorem output_extraction_fallback (parseFn : String → Option JVal)
    (logs otherLogs : String) (timeoutSecs : Nat) (ec : Int) (doc : JVal)
    (hp : ∀ l v, parseFn l = some v → braceDelimited l = true) :
    extract_output_from_logs parseFn logs
      = (last_structured_line parseFn logs).getD (.jdict [("logs", .jstr logs)])
    ∧ (run_agent timeoutSecs parseFn (.exited ec (some doc) otherLogs)).output
        = some doc
    ∧ (run_agent timeoutSecs parseFn (.exited ec none otherLogs)).output
        = some (extract_output_from_logs parseFn otherLogs) := by
  refine ⟨?_, rfl, rfl⟩
  have hfun : (fun l => if braceDelimited l then parseFn l else none) = parseFn := by
    funext l
    cases h : parseFn l with
    | none => cases hb : braceDelimited l <;> simp [hb, h]
    | some v => rw [hp l v h]; simp [h]
  unfold extract_output_from_logs last_structured_line
  rw [hfun, findSome_reverse_eq_getLast_filterMap]
  cases ((logs.splitOn "\n").filterMap parseFn).getLast? <;> simp

/-- C8 witness: with the concrete object parser `sample_parse` and logs
containing one parsing line, the fallback extraction picks that line; the
output-file and log-fallback selections of `run_agent` are exercised on
concrete container outcomes. -/
theorem output_extraction_fallback_witness :
    extract_output_from_logs sample_parse "x\n\x7b\x7d\ny"
      = (last_structured_line sample_parse "x\n\x7b\x7d\ny").getD
          (.jdict [("logs", .jstr "x\n\x7b\x7d\ny")])
    ∧ (run_agent 300 sample_parse (.exited 0 (some (.jdict [])) "")).output
        = some (.jdict [])
    ∧ (run_agent 300 sample_parse (.exited 0 none "")).output
        = some (extract_output_from_logs sample_parse "") := by
  refine output_extraction_fallback sample_parse "x\n\x7b\x7d\ny" "" 300 0
    (.jdict []) ?_
  intro l v h
  unfold sample_parse at h
  by_cases he : l = "\x7b\x7d"
  · subst he
    decide
  · simp [he] at h

/-- C9: for a run whose execution unit exits, the recorded terminal status
is Completed exactly when the unit's exit code is 0 — for every output
document, so the success flag inside the document is never consulted; in
particular a document carrying a false success flag still yields a
Completed run when the process exits cleanly. -/
theorem completed_iff_zero_exit (r : RunResult) (tS tC timeoutSecs : Nat)
    (parseFn : String → Option JVal) (ec : Int) (outputFile : Option JVal)
    (logs : String) :
    ((execute_agent_run r
        (.returns (run_agent timeoutSecs parseFn (.exited ec outputFile logs)))
        tS tC).status = .completed ↔ ec = 0)
    ∧ (execute_agent_run r
        (.returns (run_agent timeoutSecs parseFn
          (.exited 0 (some (.jdict [("success", .jbool false)])) logs)))
        tS tC).status = .completed := by
  constructor
  · by_cases h : ec = 0 <;>
      simp [execute_agent_run, run_agent, run_started, h]
  · rfl

/-- C10: no reachable lifecycle ever records the Cancelled status, and
deleting a run only removes records — every record in the registry after a
delete was already there before, with the same status, so deletion never
marks a run Cancelled. -/
theorem cancelled_never_assigned (runId agentId problem agentPath : String)
    (tCreated tDone tStarted tCompleted : Nat)
    (so : SubmitOutcome) (call : DockerCall)
    (db db2 : List (String × RunStatus)) (containers cs2 : List String)
    (stopFails sr : Bool) (rid : String) (p : String × RunStatus) :
    RunStatus.cancelled ∉ lifecycle_trace runId agentId problem agentPath
        tCreated tDone tStarted tCompleted so call
    ∧ (delete_run db containers stopFails rid = .ok (db2, cs2, sr) →
        p ∈ db2 → p ∈ db) := by
  constructor
  · cases so with
    | zipError msg =>
      simp [lifecycle_trace, lifecycle_snapshots, submit_run, initial_run]
    | downloadError fc msg =>
      simp [lifecycle_trace, lifecycle_snapshots, submit_run, initial_run]
    | ok fc =>
      cases call with
      | returns ret =>
        cases h : ret.success <;>
          simp [lifecycle_trace, lifecycle_snapshots, submit_run, initial_run,
            run_started, execute_agent_run, h]
      | raisesTimeout =>
        simp [lifecycle_trace, lifecycle_snapshots, submit_run, initial_run,
          run_started, execute_agent_run]
      | raisesExc msg =>
        simp [lifecycle_trace, lifecycle_snapshots, submit_run, initial_run,
          run_started, execute_agent_run]
  · intro h hp
    cases hdb : db.lookup rid with
    | none => simp [delete_run, hdb] at h
    | some st =>
      by_cases hst : (st == RunStatus.running || st == RunStatus.queued) = true
      · simp only [delete_run, hdb, if_pos hst, Except.ok.injEq,
          Prod.mk.injEq] at h
        obtain ⟨h1, -, -⟩ := h
        exact List.mem_of_mem_filter (h1 ▸ hp)
      · simp only [delete_run, hdb, if_neg hst, Except.ok.injEq,
          Prod.mk.injEq] at h
        obtain ⟨h1, -, -⟩ := h
        exact List.mem_of_mem_filter (h1 ▸ hp)

/-- C10 witness: no Cancelled status in a concrete timed-out lifecycle, and
a concrete delete of a Running run keeps only records that were already in
the registry. -/
theorem cancelled_never_assigned_witness :
    RunStatus.cancelled ∉ lifecycle_trace "r" "a" "p" "ap" 0 0 1 2
        (.ok none) .raisesTimeout
    ∧ ("b", RunStatus.completed)
        ∈ [("a", RunStatus.running), ("b", RunStatus.completed)] := by
  have T := cancelled_never_assigned "r" "a" "p" "ap" 0 0 1 2
    (.ok none) .raisesTimeout
    [("a", RunStatus.running), ("b", RunStatus.completed)]
    [("b", RunStatus.completed)] ["a"] [] true true "a"
    ("b", RunStatus.completed)
  exact ⟨T.1, T.2 (by rfl) (by simp)⟩
